import Mathlib

/-!
Shallow embedding of the attendance application (`src/app.py` together with
`src/services/firestore_db.py`), in its default Firestore storage mode
(`USE_FIRESTORE` defaults to true in app.py lines 45-49).

Modelling conventions:
* Firestore document ids are opaque unique strings allocated by the backend;
  they are modelled as natural numbers handed out by a counter in the store.
* ISO-8601 timestamps produced by `get_cambodia_time().isoformat()` are
  modelled by `Timestamp`: `day` is the local civil calendar date (an index)
  and `tod` the time of day in microseconds.  For well-formed ISO strings,
  `check_in.startswith(date_iso)` (firestore_db.py line 99) holds exactly when
  the date component equals `date_iso`, i.e. `day` equality, and Python's
  string and `datetime.time` comparisons coincide with lexicographic
  comparison of `(day, tod)`.  Asia/Phnom_Penh has a fixed UTC offset, so
  local civil dates are unambiguous.
* Python's falsiness test `not a.get('check_out')` is `Option.isNone` here:
  check-out fields are written either as `None` or as a full ISO string.
* Face encodings are opaque blobs as far as the store is concerned
  (`face_encoding_b64`); where only their identity matters they are modelled
  as natural numbers, and the matcher is parametric in the boolean closeness
  test that `face_recognition.compare_faces` applies per gallery entry.
-/

/-- Local civil timestamp: calendar-day index plus time of day in
microseconds since local midnight. -/
structure Timestamp where
  day : Nat
  tod : Nat
deriving DecidableEq

/-- Strict ordering of timestamps, mirroring comparison of equally formatted
ISO datetime strings (lexicographic on date then time of day). -/
def Timestamp.ltb (a b : Timestamp) : Bool :=
  a.day < b.day || (a.day == b.day && a.tod < b.tod)

/-- Check-in classification written into `check_in_status`
(app.py lines 405-412); `good` is the code's `'Good'`, which the spec calls
`OnTime`. -/
inductive Status where
  | early
  | good
  | late
deriving DecidableEq

/-- An attendance document (`attendances` collection, firestore_db.py).
Documents created by `add_attendance` (lines 75-86) carry `employee_id` and
no `employee_name`; legacy documents may instead carry `employee_name`. -/
structure Att where
  id : Nat
  employee_id : Option Nat
  employee_name : Option String
  check_in : Timestamp
  check_out : Option Timestamp
  check_in_status : Status
deriving DecidableEq

/-- The attendance collection plus the backend's document id allocator. -/
structure AttStore where
  atts : List Att
  nextId : Nat
deriving DecidableEq

def emptyAttStore : AttStore := ⟨[], 0⟩

/-- Resolver errors: the `'is already checked in for today'` and
`'No active check-in found.'` 400 responses (app.py lines 418 and 439). -/
inductive AttError where
  | alreadyCheckedIn
  | noActiveCheckIn
deriving DecidableEq

inductive AttResult where
  | ok
  | error (e : AttError)
deriving DecidableEq

/-- Time value of `datetime.strptime('08:00', '%H:%M').time()` in
microseconds of day (app.py line 407). -/
def earlyTime : Nat := 8 * 3600 * 1000000

/-- Time value of `datetime.strptime('08:15', '%H:%M').time()` in
microseconds of day (app.py line 408). -/
def onTimeLimit : Nat := (8 * 3600 + 15 * 60) * 1000000

/-- Check-in classification, app.py lines 405-412: status starts as
`'Good'`, becomes `'Early'` when the time of day is strictly before 08:00
and `'Late'` when strictly after 08:15. -/
def classifyCheckIn (tod : Nat) : Status :=
  if tod < earlyTime then .early
  else if tod > onTimeLimit then .late
  else .good

/-- Function `get_attendances_for_employee_on_date` (firestore_db.py lines
89-114): documents matching the employee id and the date, followed by
documents matching the employee's name and the date that were not already
found by id.  `ename` is the `name` field of the employee document that
`get_employee_by_id(eid)` returns (the route passes the matched employee's
id; the name lookup happens inside the function). -/
def get_attendances_for_employee_on_date (eid : Nat) (ename : String)
    (day : Nat) (atts : List Att) : List Att :=
  let byId := atts.filter (fun a => a.employee_id == some eid && a.check_in.day == day)
  let byName := atts.filter (fun a => a.employee_name == some ename && a.check_in.day == day)
  byId ++ byName.filter (fun a => !(byId.any (fun b => b.id == a.id)))

/-- The `check_in` branch of the attendance route (app.py lines 404-420,
Firestore arm): if some attendance for (employee, today) has a falsy
check-out, fail with the already-checked-in error; otherwise
`add_attendance` appends a fresh open document whose status classifies
`now`'s time of day. -/
def checkInAction (eid : Nat) (ename : String) (now : Timestamp)
    (s : AttStore) : AttResult × AttStore :=
  match (get_attendances_for_employee_on_date eid ename now.day s.atts).find?
      (fun a => a.check_out.isNone) with
  | some _ => (.error .alreadyCheckedIn, s)
  | none =>
      (.ok,
        { atts := s.atts ++
            [⟨s.nextId, some eid, none, now, none, classifyCheckIn now.tod⟩],
          nextId := s.nextId + 1 })

/-- The selection `open_attends.sort(key=check_in, reverse=True)` followed by
`open_attends[0]` (app.py lines 440-441): Python's sort is stable, so the
selected element is the first, in original order, among those with the
maximal check-in. -/
def selectMostRecentOpen (l : List Att) : Option Att :=
  l.foldl
    (fun acc a =>
      match acc with
      | none => some a
      | some b => if Timestamp.ltb b.check_in a.check_in then some a else some b)
    none

/-- Effect of `update_attendance(to_close['id'], {'check_out': now})`
(firestore_db.py lines 127-131) on the collection. -/
def closeAtt (aid : Nat) (now : Timestamp) (atts : List Att) : List Att :=
  atts.map (fun a => if a.id == aid then { a with check_out := some now } else a)

/-- The `check_out` branch of the attendance route (app.py lines 434-443,
Firestore arm): among today's records for the employee keep the open ones;
if none, fail with the no-active-check-in error; otherwise close the most
recent one. -/
def checkOutAction (eid : Nat) (ename : String) (now : Timestamp)
    (s : AttStore) : AttResult × AttStore :=
  match selectMostRecentOpen
      ((get_attendances_for_employee_on_date eid ename now.day s.atts).filter
        (fun a => a.check_out.isNone)) with
  | none => (.error .noActiveCheckIn, s)
  | some toClose => (.ok, { s with atts := closeAtt toClose.id now s.atts })

/-- One resolver call: a check-in or a check-out for a matched employee at a
given local time. -/
inductive AttOp where
  | checkIn (eid : Nat) (ename : String) (now : Timestamp)
  | checkOut (eid : Nat) (ename : String) (now : Timestamp)

def applyOp (s : AttStore) (op : AttOp) : AttStore :=
  match op with
  | .checkIn eid ename now => (checkInAction eid ename now s).2
  | .checkOut eid ename now => (checkOutAction eid ename now s).2

def runOps (ops : List AttOp) (s : AttStore) : AttStore :=
  ops.foldl applyOp s

/-- Predicate: an open (null check-out) record of the given employee. -/
def openP (eid : Nat) (a : Att) : Bool :=
  a.employee_id == some eid && a.check_out.isNone

/-- Number of open records an employee owns, across all days. -/
def openCount (eid : Nat) (atts : List Att) : Nat :=
  (atts.filter (openP eid)).length

/-- Predicate: an open record of the given employee on the given day. -/
def openOnDayP (eid day : Nat) (a : Att) : Bool :=
  a.employee_id == some eid && a.check_in.day == day && a.check_out.isNone

/-- Number of open records an employee owns on one civil day. -/
def openCountOnDay (eid day : Nat) (atts : List Att) : Nat :=
  (atts.filter (openOnDayP eid day)).length

/-- Number of records (open or closed) an employee owns on one civil day. -/
def recordCountOnDay (eid day : Nat) (atts : List Att) : Nat :=
  (atts.filter (fun a => a.employee_id == some eid && a.check_in.day == day)).length

/-- Call `face_recognition.compare_faces(known_face_encodings, face_encoding,
tolerance=0.6)` (app.py line 388): one boolean per gallery encoding, true
when the encoding is within tolerance of the probe.  The per-entry closeness
test (Euclidean distance at most the tolerance) is the parameter `close`. -/
def compare_faces {Enc : Type} (close : Enc → Enc → Bool)
    (known : List Enc) (probe : Enc) : List Bool :=
  known.map (fun k => close k probe)

/-- The identity-resolution loop of the attendance route (app.py lines
386-396): for each probe encoding in extraction order, compute the match
list over the gallery; on the first probe whose list contains `True`, take
`matches.index(True)` (the first candidate in gallery iteration order),
return that gallery entry's name, and stop; with no match over all probes,
no name is resolved.  The gallery is the pair of parallel caches
`known_face_encodings_cache` and `known_face_names_cache`, zipped. -/
def resolveMatchedName {Enc : Type} (close : Enc → Enc → Bool)
    (gallery : List (String × Enc)) : List Enc → Option String
  | [] => none
  | p :: rest =>
    match (compare_faces close (gallery.map Prod.snd) p).indexOf? true with
    | some idx => (gallery.map Prod.fst)[idx]?
    | none => resolveMatchedName close gallery rest

/-- Conversion `math.radians` as used by `calculate_distance`. -/
noncomputable def radians (x : ℝ) : ℝ := x * Real.pi / 180

/-- Two-argument arctangent with the quadrant conventions of C's `atan2`,
which Python's `math.atan2` exposes. -/
noncomputable def atan2 (y x : ℝ) : ℝ :=
  if 0 < x then Real.arctan (y / x)
  else if x < 0 ∧ 0 ≤ y then Real.arctan (y / x) + Real.pi
  else if x < 0 then Real.arctan (y / x) - Real.pi
  else if 0 < y then Real.pi / 2
  else if y < 0 then -(Real.pi / 2)
  else 0

/-- Function `calculate_distance` (app.py lines 266-275): Haversine distance
in meters on a sphere of radius 6371000.  The local variables `R`, `phi1`,
`phi2`, `dphi`, `dlambda`, `a` and `c` of the Python function are inlined:
the value is `R * c` with `c = 2 * atan2(sqrt a, sqrt (1 - a))` and
`a = sin(dphi/2)^2 + cos(phi1) * cos(phi2) * sin(dlambda/2)^2`. -/
noncomputable def calculate_distance (lat1 lon1 lat2 lon2 : ℝ) : ℝ :=
  6371000 * (2 * atan2
    (Real.sqrt (Real.sin (radians (lat2 - lat1) / 2) ^ 2 +
      Real.cos (radians lat1) * Real.cos (radians lat2) *
        Real.sin (radians (lon2 - lon1) / 2) ^ 2))
    (Real.sqrt (1 - (Real.sin (radians (lat2 - lat1) / 2) ^ 2 +
      Real.cos (radians lat1) * Real.cos (radians lat2) *
        Real.sin (radians (lon2 - lon1) / 2) ^ 2))))

/-- Result of the geofence gate; `tooFar` carries the computed distance. -/
inductive GeoResult where
  | ok
  | tooFar (distance : ℝ)

/-- The geofence gate of the attendance route (app.py lines 363-365):
reject exactly when the computed distance strictly exceeds the configured
maximum (`MAX_DISTANCE_METERS`). -/
noncomputable def validateGeofence (lat lon originLat originLon maxMeters : ℝ) : GeoResult :=
  if calculate_distance lat lon originLat originLon > maxMeters then
    .tooFar (calculate_distance lat lon originLat originLon)
  else .ok

/-- An employee document (`employees` collection, firestore_db.py lines
36-50); `enc` stands for the opaque `face_encoding_b64` blob. -/
structure Emp where
  id : Nat
  name : String
  enc : Nat
deriving DecidableEq

/-- The employees collection plus the backend's document id allocator. -/
structure EmpStore where
  emps : List Emp
  nextEmpId : Nat
deriving DecidableEq

/-- Function `create_employee` (firestore_db.py lines 36-50): adds a new
document unconditionally and returns its fresh id. -/
def create_employee (name : String) (enc : Nat) (s : EmpStore) : EmpStore :=
  { emps := s.emps ++ [⟨s.nextEmpId, name, enc⟩], nextEmpId := s.nextEmpId + 1 }

inductive RegResult where
  | ok
  | duplicateName
deriving DecidableEq

/-- The storage step of the `/register` route (app.py lines 298-323) for a
request whose fields validate and whose image yields a face encoding `enc`:
line 301 checks for an existing employee with the same name only when
`USE_FIRESTORE` is false; otherwise `create_employee` runs unconditionally. -/
def registerEmployee (useFirestore : Bool) (name : String) (enc : Nat)
    (s : EmpStore) : RegResult × EmpStore :=
  if !useFirestore && s.emps.any (fun e => e.name == name) then (.duplicateName, s)
  else (.ok, create_employee name enc s)

/-- Combined Firestore state: employees and attendances collections. -/
structure FsStore where
  emps : List Emp
  atts : List Att
deriving DecidableEq

/-- Function `delete_attendances_for_employee_name` (firestore_db.py lines
199-210): removes exactly the attendance documents whose `employee_name`
equals the given name. -/
def delete_attendances_for_employee_name (ename : String) (atts : List Att) : List Att :=
  atts.filter (fun a => !(a.employee_name == some ename))

/-- Function `delete_employee` (firestore_db.py lines 178-196): if the
employee document exists, delete the attendance documents matching its
`name` and then the employee document itself. -/
def fs_delete_employee (eid : Nat) (s : FsStore) : FsStore :=
  match s.emps.find? (fun e => e.id == eid) with
  | none => s
  | some emp =>
      { emps := s.emps.filter (fun e => !(e.id == eid)),
        atts := delete_attendances_for_employee_name emp.name s.atts }

/-- The `/admin/delete_employee` route (app.py lines 797-813, Firestore
arm): look up the employee, call `delete_attendances_for_employee_name` on
its name, then `delete_employee` (which repeats the name-keyed attendance
deletion and removes the employee document). -/
def deleteEmployeeManual (eid : Nat) (s : FsStore) : FsStore :=
  match s.emps.find? (fun e => e.id == eid) with
  | none => s
  | some emp =>
      fs_delete_employee eid { s with atts := delete_attendances_for_employee_name emp.name s.atts }

/-- Function `load_known_faces` (app.py lines 191-220, Firestore arm): the
gallery snapshot built from the employees currently in the store, as
parallel name/encoding sequences, here zipped into pairs. -/
def load_known_faces (s : FsStore) : List (String × Nat) :=
  s.emps.map (fun e => (e.name, e.enc))

/-- Whole-process state: the persistence store plus the in-memory gallery
caches (`known_face_encodings_cache` and `known_face_names_cache`). -/
structure AppState where
  store : FsStore
  cache : List (String × Nat)
deriving DecidableEq

/-- Effect of `firestore_db.update_employee(employee_id, update_fields)`
(firestore_db.py lines 171-175) for an edit that sets the name and, when a
new face was detected, the encoding. -/
def fs_update_employee (eid : Nat) (newName : String) (newEnc : Option Nat)
    (emps : List Emp) : List Emp :=
  emps.map (fun e => if e.id == eid then ⟨e.id, newName, newEnc.getD e.enc⟩ else e)

/-- The `/admin/edit_employee` route, POST, Firestore arm (app.py lines
674-712): after loading the employee, when the uploaded image yields a new
encoding the code calls `reload_known_faces()` (line 704) and only
afterwards `firestore_db.update_employee` (line 710) — so the gallery cache
is rebuilt from the store as it was BEFORE the mutation commits; with no new
encoding the cache is left untouched. -/
def editEmployeeManual (eid : Nat) (newName : String) (newEnc : Option Nat)
    (st : AppState) : AppState :=
  match st.store.emps.find? (fun e => e.id == eid) with
  | none => st
  | some _ =>
      let cache1 := match newEnc with
        | some _ => load_known_faces st.store
        | none => st.cache
      { store := ⟨fs_update_employee eid newName newEnc st.store.emps, st.store.atts⟩,
        cache := cache1 }

/-- Appending attendance lists adds their per-day open counts. -/
theorem openCountOnDay_append (eid day : Nat) (l1 l2 : List Att) :
    openCountOnDay eid day (l1 ++ l2) =
      openCountOnDay eid day l1 + openCountOnDay eid day l2 := by
  simp [openCountOnDay, List.filter_append]

/-- A map that can only falsify the filter predicate never increases the
filtered length. -/
theorem length_filter_map_le {α : Type} (f : α → α) (p : α → Bool) (l : List α)
    (h : ∀ a, p (f a) = true → p a = true) :
    ((l.map f).filter p).length ≤ (l.filter p).length := by
  induction l with
  | nil => simp
  | cons a t ih =>
    simp only [List.map_cons, List.filter_cons]
    by_cases hfa : p (f a) = true
    · rw [if_pos hfa, if_pos (h a hfa)]
      simpa using ih
    · rw [if_neg hfa]
      split
      · exact Nat.le_succ_of_le ih
      · exact ih

/-- A record matching the employee id and the date is found by the id arm of
`get_attendances_for_employee_on_date`. -/
theorem mem_byId_gafeod {a : Att} (eid : Nat) (ename : String) (day : Nat)
    (atts : List Att) (ha : a ∈ atts) (hid : a.employee_id = some eid)
    (hday : a.check_in.day = day) :
    a ∈ get_attendances_for_employee_on_date eid ename day atts := by
  unfold get_attendances_for_employee_on_date
  exact List.mem_append_left _ (List.mem_filter.mpr ⟨ha, by simp [hid, hday]⟩)

/-- Everything `get_attendances_for_employee_on_date` returns is a stored
record of that employee (by id or by legacy name) on that date. -/
theorem of_mem_gafeod {a : Att} {eid : Nat} {ename : String} {day : Nat}
    {atts : List Att}
    (h : a ∈ get_attendances_for_employee_on_date eid ename day atts) :
    a ∈ atts ∧ (a.employee_id = some eid ∨ a.employee_name = some ename) ∧
      a.check_in.day = day := by
  unfold get_attendances_for_employee_on_date at h
  rcases List.mem_append.mp h with h1 | h2
  · have h1' := List.mem_filter.mp h1
    refine ⟨h1'.1, ?_, ?_⟩
    · left
      have := h1'.2
      simp at this
      exact this.1
    · have := h1'.2
      simp at this
      exact this.2
  · have h2a := List.mem_filter.mp h2
    have h2b := List.mem_filter.mp h2a.1
    refine ⟨h2b.1, ?_, ?_⟩
    · right
      have := h2b.2
      simp at this
      exact this.1
    · have := h2b.2
      simp at this
      exact this.2

/-- When the check-in guard finds no open record for (employee, today), the
employee owns no open record on that day at all. -/
theorem openCountOnDay_eq_zero_of_no_open (eid : Nat) (ename : String)
    (now : Timestamp) (atts : List Att)
    (hfind : (get_attendances_for_employee_on_date eid ename now.day atts).find?
        (fun a => a.check_out.isNone) = none) :
    openCountOnDay eid now.day atts = 0 := by
  have hall := List.find?_eq_none.mp hfind
  unfold openCountOnDay
  rw [List.length_eq_zero]
  rw [List.filter_eq_nil_iff]
  intro a ha hp
  simp [openOnDayP] at hp
  have hmem : a ∈ get_attendances_for_employee_on_date eid ename now.day atts :=
    mem_byId_gafeod eid ename now.day atts ha hp.1.1 hp.1.2
  exact absurd hp.2 (by simpa using hall a hmem)

/-- A check-in preserves the per-day one-open-record bound. -/
theorem checkIn_preserves (eid : Nat) (ename : String) (now : Timestamp)
    (s : AttStore) (hInv : ∀ e d, openCountOnDay e d s.atts ≤ 1) (e d : Nat) :
    openCountOnDay e d (checkInAction eid ename now s).2.atts ≤ 1 := by
  unfold checkInAction
  cases hfind : (get_attendances_for_employee_on_date eid ename now.day s.atts).find?
      (fun a => a.check_out.isNone) with
  | some w => exact hInv e d
  | none =>
    simp only []
    rw [openCountOnDay_append]
    by_cases hp : openOnDayP e d ⟨s.nextId, some eid, none, now, none, classifyCheckIn now.tod⟩ = true
    · have h0 := openCountOnDay_eq_zero_of_no_open eid ename now s.atts hfind
      simp [openOnDayP] at hp
      obtain ⟨he, hd⟩ := hp
      subst he
      subst hd
      rw [h0]
      simp [openCountOnDay, List.filter, openOnDayP]
    · have : openCountOnDay e d
          [⟨s.nextId, some eid, none, now, none, classifyCheckIn now.tod⟩] = 0 := by
        simp [openCountOnDay, List.filter_cons, hp]
      rw [this]
      simpa using hInv e d

/-- A check-out preserves the per-day one-open-record bound. -/
theorem checkOut_preserves (eid : Nat) (ename : String) (now : Timestamp)
    (s : AttStore) (hInv : ∀ e d, openCountOnDay e d s.atts ≤ 1) (e d : Nat) :
    openCountOnDay e d (checkOutAction eid ename now s).2.atts ≤ 1 := by
  unfold checkOutAction
  cases hsel : selectMostRecentOpen
      ((get_attendances_for_employee_on_date eid ename now.day s.atts).filter
        (fun a => a.check_out.isNone)) with
  | none => exact hInv e d
  | some toClose =>
    simp only []
    calc openCountOnDay e d (closeAtt toClose.id now s.atts)
        ≤ openCountOnDay e d s.atts := by
          unfold openCountOnDay closeAtt
          apply length_filter_map_le
          intro a hpa
          by_cases hid : (a.id == toClose.id) = true
          · rw [if_pos hid] at hpa
            simp [openOnDayP] at hpa
          · rwa [if_neg hid] at hpa
      _ ≤ 1 := hInv e d

/-- Any run of resolver calls preserves the per-day one-open-record bound. -/
theorem runOps_preserves (ops : List AttOp) (s : AttStore)
    (hInv : ∀ e d, openCountOnDay e d s.atts ≤ 1) (e d : Nat) :
    openCountOnDay e d (runOps ops s).atts ≤ 1 := by
  induction ops generalizing s with
  | nil => exact hInv e d
  | cons op rest ih =>
    have hstep : ∀ e d, openCountOnDay e d (applyOp s op).atts ≤ 1 := by
      intro e d
      cases op with
      | checkIn eid ename now => exact checkIn_preserves eid ename now s hInv e d
      | checkOut eid ename now => exact checkOut_preserves eid ename now s hInv e d
    exact ih (applyOp s op) hstep

/-- Every boolean that `compare_faces` emits comes from one gallery entry. -/
theorem mem_compare_faces {Enc : Type} {close : Enc → Enc → Bool}
    {gallery : List (String × Enc)} {p : Enc} {x : Bool}
    (hx : x ∈ compare_faces close (gallery.map Prod.snd) p) :
    ∃ g ∈ gallery, close g.2 p = x := by
  unfold compare_faces at hx
  obtain ⟨e, he, hex⟩ := List.mem_map.mp hx
  obtain ⟨g, hg, hge⟩ := List.mem_map.mp he
  exact ⟨g, hg, by rw [hge]; exact hex⟩

/-- `index(True)` finds nothing in an all-false list. -/
theorem indexOf?_true_eq_none (l : List Bool) (h : ∀ x ∈ l, x = false) :
    l.indexOf? true = none := by
  induction l with
  | nil => rfl
  | cons b t ih =>
    rw [List.indexOf?_cons, h b (by simp), ih (fun x hx => h x (by simp [hx]))]
    rfl

/-- `index(True)` on falses followed by a true returns the prefix length. -/
theorem indexOf?_true_append (l1 l2 : List Bool) (h : ∀ x ∈ l1, x = false) :
    (l1 ++ true :: l2).indexOf? true = some l1.length := by
  induction l1 with
  | nil => simp [List.indexOf?_cons]
  | cons b t ih =>
    rw [List.cons_append, List.indexOf?_cons, h b (by simp),
      ih (fun x hx => h x (by simp [hx]))]
    rfl

/-- The Haversine distance from any point to itself is zero. -/
theorem calculate_distance_self (lat lon : ℝ) :
    calculate_distance lat lon lat lon = 0 := by
  unfold calculate_distance radians atan2
  norm_num

theorem pi_t_pos : (0:ℝ) < 3 * Real.pi / 40000 := by positivity

theorem pi_t_lt_half : 3 * Real.pi / 40000 < Real.pi / 2 := by
  linarith [Real.pi_pos]

theorem sin_t_nonneg : 0 ≤ Real.sin (3 * Real.pi / 40000) :=
  Real.sin_nonneg_of_nonneg_of_le_pi (le_of_lt pi_t_pos)
    (by linarith [Real.pi_pos, pi_t_lt_half])

theorem cos_t_pos : 0 < Real.cos (3 * Real.pi / 40000) :=
  Real.cos_pos_of_mem_Ioo ⟨by linarith [pi_t_pos, Real.pi_pos], pi_t_lt_half⟩

/-- Closed form of the Haversine distance between the equator points at
longitudes 0 and 0.027 degrees. -/
theorem calculate_distance_witness_value :
    calculate_distance 0 0 0 0.027 = 6371000 * (2 * (3 * Real.pi / 40000)) := by
  have e1 : radians ((0:ℝ) - 0) / 2 = 0 := by unfold radians; ring
  have e2 : radians ((0.027:ℝ) - 0) / 2 = 3 * Real.pi / 40000 := by
    unfold radians
    ring_nf
  have e3 : radians (0:ℝ) = 0 := by unfold radians; ring
  unfold calculate_distance
  rw [e1, e2, e3, Real.sin_zero, Real.cos_zero]
  have ha : (0:ℝ) ^ 2 + 1 * 1 * Real.sin (3 * Real.pi / 40000) ^ 2 =
      Real.sin (3 * Real.pi / 40000) ^ 2 := by ring
  rw [ha, Real.sqrt_sq sin_t_nonneg]
  have hb : 1 - Real.sin (3 * Real.pi / 40000) ^ 2 = Real.cos (3 * Real.pi / 40000) ^ 2 := by
    have := Real.sin_sq_add_cos_sq (3 * Real.pi / 40000)
    linarith
  rw [hb, Real.sqrt_sq (le_of_lt cos_t_pos)]
  unfold atan2
  rw [if_pos cos_t_pos, ← Real.tan_eq_sin_div_cos,
    Real.arctan_tan (by linarith [pi_t_pos, Real.pi_pos]) pi_t_lt_half]

/-- That concrete pair of points is about 3000 meters apart (within 1%). -/
theorem dist_witness_bound : |calculate_distance 0 0 0 0.027 - 3000| ≤ 30 := by
  rw [calculate_distance_witness_value, abs_le]
  constructor
  · nlinarith [Real.pi_gt_d6]
  · nlinarith [Real.pi_lt_d2]

/-- C1, counterexample: the claim as stated is false on the code.  Starting
from an empty attendance store, check-in on day 0 (never checked out)
followed by check-in on day 1 leaves the employee with TWO records having a
null check-out, because the guard only inspects records whose check-in date
is today (app.py line 415). -/
theorem c1_counterexample_cross_day_open_records :
    ¬ (openCount 1
        (runOps [.checkIn 1 "Alice" ⟨0, 30000000000⟩,
                 .checkIn 1 "Alice" ⟨1, 30000000000⟩] emptyAttStore).atts ≤ 1) := by
  decide

/-- C1, amended: after any finite sequence of check-in and check-out
operations starting from an empty attendance store, every employee has at
most one record with a null check-out per calendar day (the cross-day form
of the invariant fails; see the counterexample). -/
theorem c1_at_most_one_open_record_per_employee_day (ops : List AttOp) (eid day : Nat) :
    openCountOnDay eid day (runOps ops emptyAttStore).atts ≤ 1 := by
  apply runOps_preserves
  intro e d
  simp [openCountOnDay, emptyAttStore]

/-- C2: whenever the employee already has an open (null check-out) record
for today's civil date, `check_in` fails with the already-checked-in error
and the store is unchanged (no new record); and check-in immediately
followed by check-in for the same employee on the same day, starting with no
records of that employee for that day, fails the second call and leaves
exactly one record for that employee and day. -/
theorem c2_check_in_fails_when_already_checked_in :
    (∀ (eid : Nat) (ename : String) (now : Timestamp) (s : AttStore),
      (∃ a ∈ s.atts, a.employee_id = some eid ∧ a.check_in.day = now.day ∧
        a.check_out = none) →
      checkInAction eid ename now s = (.error .alreadyCheckedIn, s)) ∧
    (∀ (eid : Nat) (ename : String) (now1 now2 : Timestamp) (s0 : AttStore),
      now2.day = now1.day →
      (∀ a ∈ s0.atts, (a.employee_id = some eid ∨ a.employee_name = some ename) →
        a.check_in.day ≠ now1.day) →
      checkInAction eid ename now2 (checkInAction eid ename now1 s0).2 =
        (.error .alreadyCheckedIn, (checkInAction eid ename now1 s0).2) ∧
      recordCountOnDay eid now1.day
        (checkInAction eid ename now2 (checkInAction eid ename now1 s0).2).2.atts = 1) := by
  constructor
  · intro eid ename now s hex
    obtain ⟨a, ha, hid, hday, hout⟩ := hex
    have hmem := mem_byId_gafeod eid ename now.day s.atts ha hid hday
    have hsome : (get_attendances_for_employee_on_date eid ename now.day s.atts).find?
        (fun a => a.check_out.isNone) ≠ none := by
      intro hn
      have := List.find?_eq_none.mp hn a hmem
      simp [hout] at this
    unfold checkInAction
    cases hfind : (get_attendances_for_employee_on_date eid ename now.day s.atts).find?
        (fun a => a.check_out.isNone) with
    | none => exact absurd hfind hsome
    | some w => rfl
  · intro eid ename now1 now2 s0 hday hnone
    have h1 : s0.atts.filter
        (fun a => a.employee_id == some eid && a.check_in.day == now1.day) = [] := by
      rw [List.filter_eq_nil_iff]
      intro a ha hp
      simp at hp
      exact hnone a ha (Or.inl hp.1) hp.2
    have h2 : s0.atts.filter
        (fun a => a.employee_name == some ename && a.check_in.day == now1.day) = [] := by
      rw [List.filter_eq_nil_iff]
      intro a ha hp
      simp at hp
      exact hnone a ha (Or.inr hp.1) hp.2
    have hnil : get_attendances_for_employee_on_date eid ename now1.day s0.atts = [] := by
      unfold get_attendances_for_employee_on_date
      simp [h1, h2]
    have hfind1 : (get_attendances_for_employee_on_date eid ename now1.day s0.atts).find?
        (fun a => a.check_out.isNone) = none := by
      rw [hnil]; rfl
    have h1' : s0.atts.filter
        (fun a => a.employee_id == some eid && a.check_in.day == now2.day) = [] := by
      rw [List.filter_eq_nil_iff]
      intro a ha hp
      simp at hp
      rw [hday] at hp
      exact hnone a ha (Or.inl hp.1) hp.2
    have h2' : s0.atts.filter
        (fun a => a.employee_name == some ename && a.check_in.day == now2.day) = [] := by
      rw [List.filter_eq_nil_iff]
      intro a ha hp
      simp at hp
      rw [hday] at hp
      exact hnone a ha (Or.inr hp.1) hp.2
    have hgaf2 : get_attendances_for_employee_on_date eid ename now2.day
        (s0.atts ++ [⟨s0.nextId, some eid, none, now1, none, classifyCheckIn now1.tod⟩]) =
        [⟨s0.nextId, some eid, none, now1, none, classifyCheckIn now1.tod⟩] := by
      unfold get_attendances_for_employee_on_date
      simp only [List.filter_append, h1', h2']
      simp [hday]
    set s1 := (checkInAction eid ename now1 s0).2 with hs1def
    have hatts1 : s1.atts =
        s0.atts ++ [⟨s0.nextId, some eid, none, now1, none, classifyCheckIn now1.tod⟩] := by
      rw [hs1def]
      unfold checkInAction
      rw [hfind1]
    have ha : checkInAction eid ename now2 s1 = (.error .alreadyCheckedIn, s1) := by
      unfold checkInAction
      rw [hatts1, hgaf2]
      rfl
    refine ⟨ha, ?_⟩
    rw [ha]
    show recordCountOnDay eid now1.day s1.atts = 1
    rw [hatts1]
    unfold recordCountOnDay
    rw [List.filter_append, h1]
    simp

/-- C2, witness: a concrete store with one open record for today rejects a
further check-in unchanged, and a double same-day check-in from an empty
store fails the second call leaving exactly one record. -/
theorem c2_check_in_fails_when_already_checked_in_witness :
    checkInAction 1 "Alice" ⟨0, 200⟩ ⟨[⟨0, some 1, none, ⟨0, 100⟩, none, .good⟩], 1⟩ =
      (.error .alreadyCheckedIn, ⟨[⟨0, some 1, none, ⟨0, 100⟩, none, .good⟩], 1⟩) ∧
    (checkInAction 1 "Alice" ⟨0, 200⟩ (checkInAction 1 "Alice" ⟨0, 100⟩ emptyAttStore).2 =
      (.error .alreadyCheckedIn, (checkInAction 1 "Alice" ⟨0, 100⟩ emptyAttStore).2) ∧
     recordCountOnDay 1 0
       (checkInAction 1 "Alice" ⟨0, 200⟩
         (checkInAction 1 "Alice" ⟨0, 100⟩ emptyAttStore).2).2.atts = 1) :=
  ⟨c2_check_in_fails_when_already_checked_in.1 1 "Alice" ⟨0, 200⟩
      ⟨[⟨0, some 1, none, ⟨0, 100⟩, none, .good⟩], 1⟩ (by decide),
   c2_check_in_fails_when_already_checked_in.2 1 "Alice" ⟨0, 100⟩ ⟨0, 200⟩
      emptyAttStore (by decide) (by decide)⟩

/-- C3: when the employee has no open (null check-out) record for today —
neither keyed by id nor by legacy name — `check_out` fails with the
no-active-check-in error and the store is returned unchanged. -/
theorem c3_check_out_fails_without_open_record (eid : Nat) (ename : String)
    (now : Timestamp) (s : AttStore)
    (h : ∀ a ∈ s.atts, (a.employee_id = some eid ∨ a.employee_name = some ename) →
      a.check_in.day = now.day → a.check_out ≠ none) :
    checkOutAction eid ename now s = (.error .noActiveCheckIn, s) := by
  have hfil : (get_attendances_for_employee_on_date eid ename now.day s.atts).filter
      (fun a => a.check_out.isNone) = [] := by
    rw [List.filter_eq_nil_iff]
    intro a hmem hp
    obtain ⟨ha, hmatch, hdy⟩ := of_mem_gafeod hmem
    have hne := h a ha hmatch hdy
    cases hout : a.check_out with
    | none => exact absurd hout hne
    | some t => rw [hout] at hp; simp at hp
  unfold checkOutAction
  rw [hfil]
  rfl

/-- C3, witness: a store holding only a closed record for the employee
rejects a check-out and is unchanged. -/
theorem c3_check_out_fails_without_open_record_witness :
    checkOutAction 1 "Alice" ⟨0, 300⟩
      ⟨[⟨0, some 1, none, ⟨0, 100⟩, some ⟨0, 200⟩, .good⟩], 1⟩ =
      (.error .noActiveCheckIn,
        ⟨[⟨0, some 1, none, ⟨0, 100⟩, some ⟨0, 200⟩, .good⟩], 1⟩) :=
  c3_check_out_fails_without_open_record 1 "Alice" ⟨0, 300⟩
    ⟨[⟨0, some 1, none, ⟨0, 100⟩, some ⟨0, 200⟩, .good⟩], 1⟩ (by decide)

/-- C4: over any closeness test and gallery, identity resolution returns the
name of the first gallery entry (in iteration order) within tolerance of the
first probe (in extraction order) that has any candidate match, skipping the
remaining probes; and when no probe is within tolerance of any gallery
entry, no name is resolved (the route then answers that no matching employee
was found).  Selection is first-candidate-in-iteration-order, not
nearest-distance. -/
theorem c4_matcher_first_probe_first_gallery_candidate {Enc : Type}
    (close : Enc → Enc → Bool)
    (gallery : List (String × Enc)) (probes : List Enc) :
    ((∀ p ∈ probes, ∀ g ∈ gallery, close g.2 p = false) →
      resolveMatchedName close gallery probes = none) ∧
    (∀ (probes1 : List Enc) (p : Enc) (probes2 : List Enc)
        (g1 : List (String × Enc)) (gp : String × Enc) (g2 : List (String × Enc)),
      probes = probes1 ++ p :: probes2 →
      (∀ q ∈ probes1, ∀ g ∈ gallery, close g.2 q = false) →
      gallery = g1 ++ gp :: g2 →
      (∀ g ∈ g1, close g.2 p = false) →
      close gp.2 p = true →
      resolveMatchedName close gallery probes = some gp.1) := by
  constructor
  · intro hnone
    induction probes with
    | nil => rfl
    | cons p rest ih =>
      unfold resolveMatchedName
      have hms : (compare_faces close (gallery.map Prod.snd) p).indexOf? true = none := by
        apply indexOf?_true_eq_none
        intro x hx
        obtain ⟨g, hgm, hge⟩ := mem_compare_faces hx
        rw [← hge]
        exact hnone p (by simp) g hgm
      rw [hms]
      exact ih (fun q hq => hnone q (by simp [hq]))
  · intro probes1 p probes2 g1 gp g2 hpr hskip hgal hg1 hgp
    subst hpr
    subst hgal
    induction probes1 with
    | nil =>
      rw [List.nil_append]
      unfold resolveMatchedName
      have hsplit : compare_faces close ((g1 ++ gp :: g2).map Prod.snd) p =
          compare_faces close (g1.map Prod.snd) p ++ true ::
            compare_faces close (g2.map Prod.snd) p := by
        unfold compare_faces
        simp only [List.map_append, List.map_cons]
        rw [hgp]
      have hlen : (compare_faces close (g1.map Prod.snd) p).length = g1.length := by
        unfold compare_faces
        simp
      have hms : (compare_faces close ((g1 ++ gp :: g2).map Prod.snd) p).indexOf? true =
          some g1.length := by
        rw [hsplit, indexOf?_true_append, hlen]
        intro x hx
        obtain ⟨g, hgm, hge⟩ := mem_compare_faces hx
        rw [← hge]
        exact hg1 g hgm
      rw [hms]
      show (List.map Prod.fst (g1 ++ gp :: g2))[g1.length]? = some gp.1
      rw [List.map_append, List.map_cons,
        List.getElem?_append_right (by simp)]
      simp
    | cons q t ih =>
      rw [List.cons_append]
      unfold resolveMatchedName
      have hms : (compare_faces close ((g1 ++ gp :: g2).map Prod.snd) q).indexOf? true =
          none := by
        apply indexOf?_true_eq_none
        intro x hx
        obtain ⟨g, hgm, hge⟩ := mem_compare_faces hx
        rw [← hge]
        exact hskip q (by simp) g hgm
      rw [hms]
      exact ih (fun r hr => hskip r (by simp [hr]))

/-- C4, witness: with equality as the closeness test, probe 5 matches
nothing, probe 2 matches the second and third gallery entries, and the
second ("B", the first candidate in iteration order) wins; a probe list
matching nothing resolves to no name. -/
theorem c4_matcher_first_probe_first_gallery_candidate_witness :
    resolveMatchedName (fun a b => a == b) [("A", 1), ("B", 2), ("C", 2)]
      ([5] ++ 2 :: []) = some ("B", 2).1 ∧
    resolveMatchedName (fun a b => a == b) [("A", 1), ("B", 2), ("C", 2)] [7, 9] = none :=
  ⟨(c4_matcher_first_probe_first_gallery_candidate (fun a b => a == b)
      [("A", 1), ("B", 2), ("C", 2)] ([5] ++ 2 :: [])).2
      [5] 2 [] [("A", 1)] ("B", 2) [("C", 2)] rfl (by decide) rfl (by decide) (by decide),
   (c4_matcher_first_probe_first_gallery_candidate (fun a b => a == b)
      [("A", 1), ("B", 2), ("C", 2)] [7, 9]).1 (by decide)⟩

/-- C5: a successful check-in appends exactly one record whose status is the
classification of the check-in time of day, and with the default boundaries
that classification is Early strictly before 08:00, Late strictly after
08:15, and Good (the code's name for OnTime) otherwise, including exactly
08:00:00 and 08:15:00. -/
theorem c5_check_in_classification_boundaries (eid : Nat) (ename : String)
    (now : Timestamp) (s : AttStore)
    (h : (checkInAction eid ename now s).1 = .ok) :
    (checkInAction eid ename now s).2.atts =
      s.atts ++ [⟨s.nextId, some eid, none, now, none, classifyCheckIn now.tod⟩] ∧
    (now.tod < earlyTime → classifyCheckIn now.tod = .early) ∧
    (now.tod > onTimeLimit → classifyCheckIn now.tod = .late) ∧
    (earlyTime ≤ now.tod → now.tod ≤ onTimeLimit → classifyCheckIn now.tod = .good) := by
  refine ⟨?_, ?_, ?_, ?_⟩
  · unfold checkInAction at h ⊢
    cases hfind : (get_attendances_for_employee_on_date eid ename now.day s.atts).find?
        (fun a => a.check_out.isNone) with
    | some w =>
      rw [hfind] at h
      exact absurd h (by simp)
    | none => rfl
  · intro hlt
    simp [classifyCheckIn, hlt]
  · intro hgt
    unfold classifyCheckIn earlyTime onTimeLimit at *
    rw [if_neg (by omega), if_pos (by omega)]
  · intro hge hle
    unfold classifyCheckIn
    rw [if_neg (by omega), if_neg (by omega)]

/-- C5, witness: a check-in at 07:59:59 local time (28799000000 microseconds
of day) from an empty store succeeds, creating one record classified by
`classifyCheckIn`, and the boundary implications hold at that time. -/
theorem c5_check_in_classification_boundaries_witness :
    (checkInAction 1 "Alice" ⟨0, 28799000000⟩ emptyAttStore).2.atts =
      emptyAttStore.atts ++ [⟨emptyAttStore.nextId, some 1, none, ⟨0, 28799000000⟩, none,
        classifyCheckIn 28799000000⟩] ∧
    (28799000000 < earlyTime → classifyCheckIn 28799000000 = .early) ∧
    (28799000000 > onTimeLimit → classifyCheckIn 28799000000 = .late) ∧
    (earlyTime ≤ 28799000000 → 28799000000 ≤ onTimeLimit →
      classifyCheckIn 28799000000 = .good) :=
  c5_check_in_classification_boundaries 1 "Alice" ⟨0, 28799000000⟩ emptyAttStore (by decide)

/-- C6: the geofence computes the Haversine great-circle distance on a
sphere of radius 6371000 meters; validating the origin against itself gives
distance 0 and passes for any nonnegative maximum, and any claimed position
whose computed distance is within 1% of 3000 meters is rejected as too far
(with that distance) when the maximum is 2000. -/
theorem c6_geofence_haversine_distance :
    (∀ olat olon maxM : ℝ, 0 ≤ maxM →
      calculate_distance olat olon olat olon = 0 ∧
      validateGeofence olat olon olat olon maxM = .ok) ∧
    (∀ lat lon olat olon : ℝ,
      |calculate_distance lat lon olat olon - 3000| ≤ 30 →
      validateGeofence lat lon olat olon 2000 =
        .tooFar (calculate_distance lat lon olat olon) ∧
      |calculate_distance lat lon olat olon - 3000| ≤ 30) := by
  constructor
  · intro olat olon maxM h
    refine ⟨calculate_distance_self olat olon, ?_⟩
    unfold validateGeofence
    rw [calculate_distance_self]
    rw [if_neg (not_lt.mpr h)]
  · intro lat lon olat olon hd
    have hb := abs_le.mp hd
    unfold validateGeofence
    rw [if_pos (by linarith [hb.1])]
    exact ⟨rfl, hd⟩

/-- C6, witness: the configured company origin validated against itself
passes with distance 0, and a concrete point about 3000 meters away (two
equator points 0.027 degrees of longitude apart) is rejected as too far with
maximum 2000. -/
theorem c6_geofence_haversine_distance_witness :
    ((0:ℝ) ≤ 2000 ∧
      calculate_distance 13.37488193943832 103.842437801041
        13.37488193943832 103.842437801041 = 0 ∧
      validateGeofence 13.37488193943832 103.842437801041
        13.37488193943832 103.842437801041 2000 = .ok) ∧
    (|calculate_distance 0 0 0 0.027 - 3000| ≤ 30 ∧
      validateGeofence 0 0 0 0.027 2000 = .tooFar (calculate_distance 0 0 0 0.027) ∧
      |calculate_distance 0 0 0 0.027 - 3000| ≤ 30) :=
  ⟨⟨by norm_num, c6_geofence_haversine_distance.1 13.37488193943832 103.842437801041
      2000 (by norm_num)⟩,
   ⟨dist_witness_bound, c6_geofence_haversine_distance.2 0 0 0 0.027 dist_witness_bound⟩⟩

/-- C7, code bug: in Firestore mode (the default) the `/register` route
skips the duplicate-name check (app.py line 301 tests the name only when
`USE_FIRESTORE` is false) and `create_employee` inserts unconditionally, so
registering a name that already exists succeeds and leaves two active
employees with the same name; the SQL arm rejects the same request, showing
the intended behavior. -/
theorem c7_firestore_register_allows_duplicate_name :
    (registerEmployee true ("Alice") 2 ⟨[⟨0, ("Alice"), 1⟩], 1⟩).1 = .ok ∧
    ((registerEmployee true ("Alice") 2 ⟨[⟨0, ("Alice"), 1⟩], 1⟩).2.emps.filter
      (fun e => e.name == ("Alice"))).length = 2 ∧
    registerEmployee false ("Alice") 2 ⟨[⟨0, ("Alice"), 1⟩], 1⟩ =
      (.duplicateName, ⟨[⟨0, ("Alice"), 1⟩], 1⟩) := by
  decide

/-- C8, code bug: deleting an employee removes the employee document and the
attendance documents keyed by the legacy `employee_name` field, but the
records that `add_attendance` creates are keyed by `employee_id` and are
never deleted — one id-keyed record referencing the deleted employee
remains, contradicting the cascade the claim (and the route's own success
message) describes. -/
theorem c8_delete_leaves_id_keyed_attendances :
    (deleteEmployeeManual 7
      ⟨[⟨7, ("Alice"), 1⟩],
       [⟨0, some 7, none, ⟨0, 100⟩, none, .good⟩,
        ⟨1, none, some ("Alice"), ⟨0, 200⟩, none, .good⟩]⟩).emps = [] ∧
    (deleteEmployeeManual 7
      ⟨[⟨7, ("Alice"), 1⟩],
       [⟨0, some 7, none, ⟨0, 100⟩, none, .good⟩,
        ⟨1, none, some ("Alice"), ⟨0, 200⟩, none, .good⟩]⟩).atts =
      [⟨0, some 7, none, ⟨0, 100⟩, none, .good⟩] ∧
    ((deleteEmployeeManual 7
      ⟨[⟨7, ("Alice"), 1⟩],
       [⟨0, some 7, none, ⟨0, 100⟩, none, .good⟩,
        ⟨1, none, some ("Alice"), ⟨0, 200⟩, none, .good⟩]⟩).atts.filter
      (fun a => a.employee_id == some 7)).length = 1 := by
  decide

/-- C9, code bug: an edit that replaces the face encoding calls
`reload_known_faces()` before `update_employee` commits (app.py lines 704
and 710), so after the edit returns the store holds the new encoding while
the gallery cache still holds the old one — the cache does not equal the
gallery rebuilt from the post-mutation store, contradicting the claim that
the new encoding is visible to matching before the edit request returns. -/
theorem c9_edit_reloads_gallery_before_update :
    (editEmployeeManual 7 ("Alice") (some 2)
      ⟨⟨[⟨7, ("Alice"), 1⟩], []⟩, [(("Alice"), 1)]⟩).store.emps = [⟨7, ("Alice"), 2⟩] ∧
    (editEmployeeManual 7 ("Alice") (some 2)
      ⟨⟨[⟨7, ("Alice"), 1⟩], []⟩, [(("Alice"), 1)]⟩).cache = [(("Alice"), 1)] ∧
    (editEmployeeManual 7 ("Alice") (some 2)
      ⟨⟨[⟨7, ("Alice"), 1⟩], []⟩, [(("Alice"), 1)]⟩).cache ≠
      load_known_faces (editEmployeeManual 7 ("Alice") (some 2)
        ⟨⟨[⟨7, ("Alice"), 1⟩], []⟩, [(("Alice"), 1)]⟩).store := by
  decide

/-- C10: the geofence accepts exactly when the computed distance is at most
the configured maximum — in particular a position at distance exactly equal
to the maximum is accepted, and rejection happens only for strictly greater
distances. -/
theorem c10_geofence_accepts_distance_at_maximum (lat lon olat olon maxM : ℝ) :
    (validateGeofence lat lon olat olon maxM = .ok ↔
      calculate_distance lat lon olat olon ≤ maxM) ∧
    validateGeofence lat lon olat olon (calculate_distance lat lon olat olon) = .ok := by
  constructor
  · unfold validateGeofence
    by_cases h : calculate_distance lat lon olat olon > maxM
    · rw [if_pos h]
      constructor
      · intro hc
        exact absurd hc (by simp)
      · intro hle
        linarith
    · rw [if_neg h]
      exact ⟨fun _ => not_lt.mp h, fun _ => rfl⟩
  · unfold validateGeofence
    rw [if_neg (lt_irrefl _)]

/-- C10, witness: a position whose distance from the origin exactly equals
the configured maximum is accepted. -/
theorem c10_geofence_accepts_distance_at_maximum_witness :
    validateGeofence 0 0 0 0.027 (calculate_distance 0 0 0 0.027) = .ok :=
  (c10_geofence_accepts_distance_at_maximum 0 0 0 0.027
    (calculate_distance 0 0 0 0.027)).2
